import Mathlib

/-!
Verification of the Anywhere voice-driven Street View explorer.

This file gives a shallow embedding of the streaming-session client
(`src/lib/gemini-live-client.ts`), the tool registry
(`src/lib/navigation-tools.ts`), the navigation dispatch
(`src/components/anywhere-explorer.tsx`) and the viewer control API
(`street-view-panorama.tsx`), and settles the specification claims
against it.  JavaScript numbers are modelled as rationals, byte buffers
as lists of naturals below 256, and JS objects as association lists.
Rational arithmetic is routed through `Rat.divInt` on numerators and
denominators so that every definition evaluates by kernel reduction.
-/

namespace Anywhere

/-! ## Executable rational arithmetic

Helpers for exact JavaScript-number arithmetic.  Each operation is the
ordinary field operation on `ℚ`, expressed through `Rat.divInt` so that
concrete instances compute by `decide`. -/

/-- Exact rational addition via numerators and denominators. -/
def qadd (a b : ℚ) : ℚ := Rat.divInt (a.num * b.den + b.num * a.den) ((a.den : ℤ) * b.den)

/-- Exact rational subtraction. -/
def qsub (a b : ℚ) : ℚ := qadd a (Rat.divInt (-b.num) b.den)

/-- Exact rational multiplication. -/
def qmul (a b : ℚ) : ℚ := Rat.divInt (a.num * b.num) ((a.den : ℤ) * b.den)

/-- Exact rational division. -/
def qdiv (a b : ℚ) : ℚ := Rat.divInt (a.num * b.den) ((a.den : ℤ) * b.num)

/-- Floor of a rational, computed by floor-division of numerator by denominator. -/
def ratFloor (q : ℚ) : ℤ := q.num.fdiv q.den

/-- Ceiling of a rational. -/
def ratCeil (q : ℚ) : ℤ := -ratFloor (qsub 0 q)

/-- JavaScript truncation toward zero, as performed by the JS `%` operator
on its implicit quotient. -/
def ratTrunc (q : ℚ) : ℤ := if 0 ≤ q then ratFloor q else ratCeil q

/-- The JavaScript `%` operator on numbers: truncated remainder
`a - m * trunc(a / m)`. -/
def jsRem (a m : ℚ) : ℚ := qsub a (qmul m (Rat.divInt (ratTrunc (qdiv a m)) 1))

/-- JavaScript `Math.round`: floor of the argument plus one half. -/
def jsRound (q : ℚ) : ℤ := ratFloor (qadd q (Rat.divInt 1 2))

/-! ## Heading to cardinal conversion

`headingToCardinal` from `gemini-live-client.ts` (an identical private
copy lives in `system-prompt.ts`). -/

/-- The eight cardinal direction labels, in the order used by the source. -/
def directions : List String := ["N", "NE", "E", "SE", "S", "SW", "W", "NW"]

/-- `headingToCardinal`: normalize the heading into `[0, 360)` with
`((heading % 360) + 360) % 360`, then look up
`directions[Math.round(normalizedHeading / 45) % 8]`. -/
def headingToCardinal (heading : ℚ) : String :=
  let normalizedHeading := jsRem (qadd (jsRem heading 360) 360) 360
  let index := (jsRound (qdiv normalizedHeading 45)).tmod 8
  directions.getD index.toNat "N"

/-- C9 counterexample: the claimed table of values is false on the code.
`headingToCardinal 44` is `"NE"`, not `"N"` (44° lies in the north-east
sector, whose band starts at 22.5°), and `headingToCardinal (-10)` is
`"N"`, not `"NW"` (−10° normalizes to 350°, inside the north band that
starts at 337.5°). -/
theorem headingToCardinal_claimed_table_false :
    headingToCardinal 44 ≠ "N" ∧ headingToCardinal (-10) ≠ "NW" := by
  constructor <;> decide

/-- C9 (amended): the heading-to-cardinal conversion satisfies
`cardinal(0)=N`, `cardinal(44)=NE`, `cardinal(46)=NE`, `cardinal(359)=N`
and `cardinal(-10)=N`; a negative input is first normalized into
`[0, 360)` (−10 becomes 350). -/
theorem headingToCardinal_table :
    headingToCardinal 0 = "N" ∧
    headingToCardinal 44 = "NE" ∧
    headingToCardinal 46 = "NE" ∧
    headingToCardinal 359 = "N" ∧
    headingToCardinal (-10) = "N" ∧
    jsRem (qadd (jsRem (-10) 360) 360) 360 = 350 := by
  refine ⟨?_, ?_, ?_, ?_, ?_, ?_⟩ <;> decide

/-! ## JSON-like primitive values

Arguments of tool calls are JS objects whose fields hold primitive
values; they are modelled as association lists over `JPrim`. -/

/-- A primitive JavaScript value as it appears in tool-call arguments. -/
inductive JPrim where
  | num (q : ℚ)
  | str (s : String)
  | boolean (b : Bool)
  | jnull
  deriving Repr, DecidableEq

/-! ## Streaming session client (`GeminiLiveClient`)

The mutable fields of `GeminiLiveClient`: the `session` handle
(modelled by `sessionPresent`), the three `SessionState` flags and the
turn accumulator (two buffers plus the `isReceivingAiOutput` flag). -/

/-- The mutable state of a `GeminiLiveClient` instance. -/
structure ClientState where
  sessionPresent : Bool
  isConnected : Bool
  isProcessing : Bool
  isSpeaking : Bool
  accumulatedAiResponse : String
  accumulatedTranscript : String
  isReceivingAiOutput : Bool
  deriving Repr, DecidableEq

/-- The state built by the constructor: no session, all flags down,
empty accumulators. -/
def initialClientState : ClientState :=
  { sessionPresent := false, isConnected := false, isProcessing := false,
    isSpeaking := false, accumulatedAiResponse := "", accumulatedTranscript := "",
    isReceivingAiOutput := false }

/-- `String.endsWith`, computed on the underlying character list. -/
def strEndsWith (s suffix : String) : Bool := suffix.data.isSuffixOf s.data

/-- `String.startsWith`, computed on the underlying character list. -/
def strStartsWith (s pre : String) : Bool := pre.data.isPrefixOf s.data

/-- The accumulator append used by both transcription branches of
`handleMessage`: insert a single separating space exactly when the
accumulator is non-empty (JS truthiness), does not already end with a
space, and the new fragment does not start with one. -/
def joinAppend (acc newText : String) : String :=
  if acc ≠ "" ∧ strEndsWith acc " " = false ∧ strStartsWith newText " " = false then
    acc ++ " " ++ newText
  else
    acc ++ newText

/-- One entry of `toolCall.functionCalls`: name, argument object and
call identifier, each optional on the wire. -/
structure FunctionCall where
  name : Option String
  args : Option (List (String × JPrim))
  id : Option String
  deriving Repr, DecidableEq

/-- One part of `serverContent.modelTurn.parts`: an optional text
fragment and an optional inline function call. -/
structure ModelPart where
  text : Option String
  functionCall : Option FunctionCall
  deriving Repr, DecidableEq

/-- `serverContent` of an inbound frame.  The nested optional
`inputTranscription.text` / `outputTranscription.text` fields are
flattened to a single optional string each. -/
structure ServerContent where
  turnComplete : Bool
  modelTurn : Option (List ModelPart)
  inputTranscription : Option String
  outputTranscription : Option String
  deriving Repr, DecidableEq

/-- An inbound `LiveServerMessage` as consumed by `handleMessage`. -/
structure LiveServerMessage where
  data : Option String
  serverContent : Option ServerContent
  toolCall : Option (List FunctionCall)
  deriving Repr, DecidableEq

/-- The `turnComplete` branch of `handleMessage`: reset processing and
speaking flags, both accumulators and the output-mode flag. -/
def applyTurnComplete (st : ClientState) : ClientState :=
  { st with isProcessing := false, isSpeaking := false,
            accumulatedAiResponse := "", accumulatedTranscript := "",
            isReceivingAiOutput := false }

/-- The per-part body of the `modelTurn.parts` loop.  A text part is
appended to the agent-text accumulator by plain concatenation (the
source uses `+=` with no space insertion here); an inline function call
spawns `executeFunctionCall` with an empty identifier and does not
mutate the client state. -/
def applyModelTurnPart (st : ClientState) (part : ModelPart) : ClientState :=
  match part.text with
  | some t => if t ≠ "" then { st with accumulatedAiResponse := st.accumulatedAiResponse ++ t } else st
  | none => st

/-- The `inputTranscription` branch of `handleMessage` (guard
`text` non-empty already checked by the caller): leaving agent-output
mode clears the agent-text buffer, then the fragment is appended to the
user-transcript buffer with space-joining. -/
def applyInputTranscription (st : ClientState) (newText : String) : ClientState :=
  let st :=
    if st.isReceivingAiOutput then
      { st with isReceivingAiOutput := false, accumulatedAiResponse := "" }
    else st
  { st with accumulatedTranscript := joinAppend st.accumulatedTranscript newText }

/-- The `outputTranscription` branch of `handleMessage` (guard
`text` non-empty already checked by the caller): entering agent-output
mode clears the user-transcript buffer, then the fragment is appended
to the agent-text buffer with space-joining. -/
def applyOutputTranscription (st : ClientState) (newText : String) : ClientState :=
  let st :=
    if st.isReceivingAiOutput = false then
      { st with isReceivingAiOutput := true, accumulatedTranscript := "" }
    else st
  { st with accumulatedAiResponse := joinAppend st.accumulatedAiResponse newText }

/-- Processing of the `serverContent` portion of an inbound frame, in
source order: turn completion, model-turn parts, input transcription,
output transcription. -/
def applyServerContent (st : ClientState) (sc : ServerContent) : ClientState :=
  let st := if sc.turnComplete then applyTurnComplete st else st
  let st :=
    match sc.modelTurn with
    | some parts => parts.foldl applyModelTurnPart st
    | none => st
  let st :=
    match sc.inputTranscription with
    | some t => if t ≠ "" then applyInputTranscription st t else st
    | none => st
  match sc.outputTranscription with
  | some t => if t ≠ "" then applyOutputTranscription st t else st
  | none => st

/-- `handleMessage`: audio data sets the speaking flag (empty base64
strings are falsy and skipped), then `serverContent` is processed, and
a `toolCall` frame sets the processing flag (its function calls are
dispatched through `executeFunctionCall`, which never mutates these
fields). -/
def handleMessage (st : ClientState) (msg : LiveServerMessage) : ClientState :=
  let st :=
    match msg.data with
    | some d => if d ≠ "" then { st with isSpeaking := true } else st
    | none => st
  let st :=
    match msg.serverContent with
    | some sc => applyServerContent st sc
    | none => st
  match msg.toolCall with
  | some _ => { st with isProcessing := true }
  | none => st

/-- `handleOpen`: the transport signalled open. -/
def handleOpen (st : ClientState) : ClientState := { st with isConnected := true }

/-- `handleClose`: the transport closed; all flags are lowered and the
session handle is cleared, but the accumulators are left as they are. -/
def handleClose (st : ClientState) : ClientState :=
  { st with sessionPresent := false, isConnected := false,
            isProcessing := false, isSpeaking := false }

/-- `disconnect()`: close and clear the session, reset all flags and
both accumulators. -/
def disconnect (_st : ClientState) : ClientState :=
  { sessionPresent := false, isConnected := false, isProcessing := false,
    isSpeaking := false, accumulatedAiResponse := "", accumulatedTranscript := "",
    isReceivingAiOutput := false }

/-- Outcome of handing one audio frame to the transport, for the
connected case of `sendAudio`. -/
inductive SendCondition where
  | delivered
  | closingRace
  | fault
  deriving Repr, DecidableEq

/-- `sendAudio`: when no session is held or the connected flag is down
the frame is dropped and `false` returned with no state change.  When
connected, a send that races with a closing socket drops the frame,
lowers only the connected flag and returns `false`; any other transport
error is rethrown (`Except.error`). -/
def sendAudio (st : ClientState) (cond : SendCondition) : Except String (Bool × ClientState) :=
  if st.sessionPresent = false ∨ st.isConnected = false then
    Except.ok (false, st)
  else
    match cond with
    | SendCondition.delivered => Except.ok (true, st)
    | SendCondition.closingRace => Except.ok (false, { st with isConnected := false })
    | SendCondition.fault => Except.error "WebSocket send failure"

/-- `sendText`: throws when disconnected, otherwise raises the
processing flag before transmitting the turn. -/
def sendText (st : ClientState) : Except String ClientState :=
  if st.sessionPresent = false ∨ st.isConnected = false then
    Except.error "Not connected to Gemini Live API"
  else
    Except.ok { st with isProcessing := true }

/-- `interrupt()`: no-op when disconnected; otherwise lowers the
speaking flag and clears the accumulators. -/
def interrupt (st : ClientState) : ClientState :=
  if st.sessionPresent = false ∨ st.isConnected = false then st
  else
    { st with isSpeaking := false, accumulatedAiResponse := "",
              accumulatedTranscript := "", isReceivingAiOutput := false }

/-- One externally observable event acting on the client state: the
transport callbacks, the public methods, and the three possible
transport outcomes of a connected `sendAudio`. -/
inductive ClientEvent where
  | transportOpen
  | message (msg : LiveServerMessage)
  | transportClose
  | disconnectCall
  | sendAudioCall (cond : SendCondition)
  | sendTextCall
  | interruptCall
  deriving Repr, DecidableEq

/-- The transition function.  `connect()` stores the session handle and
the open callback raises the connected flag; inbound messages can only
arrive while a session is held; a throwing `sendAudio`/`sendText`
leaves the state unchanged. -/
def step (st : ClientState) (ev : ClientEvent) : ClientState :=
  match ev with
  | ClientEvent.transportOpen => { (handleOpen st) with sessionPresent := true }
  | ClientEvent.message msg => if st.sessionPresent then handleMessage st msg else st
  | ClientEvent.transportClose => handleClose st
  | ClientEvent.disconnectCall => disconnect st
  | ClientEvent.sendAudioCall cond =>
    match sendAudio st cond with
    | Except.ok (_, st2) => st2
    | Except.error _ => st
  | ClientEvent.sendTextCall =>
    match sendText st with
    | Except.ok st2 => st2
    | Except.error _ => st
  | ClientEvent.interruptCall => interrupt st

/-- The state reached from the constructor state after a sequence of
events. -/
def run (evs : List ClientEvent) : ClientState := evs.foldl step initialClientState

/-! ### Connection-flag invariant (claim about `isConnected`) -/

/-- Message handling never touches the session handle or the connected
flag (per-part version). -/
theorem applyModelTurnPart_conn (st : ClientState) (p : ModelPart) :
    (applyModelTurnPart st p).sessionPresent = st.sessionPresent ∧
    (applyModelTurnPart st p).isConnected = st.isConnected := by
  unfold applyModelTurnPart
  cases p.text with
  | none => exact ⟨rfl, rfl⟩
  | some t => by_cases h : t ≠ "" <;> simp [h]

/-- Message handling never touches the session handle or the connected
flag (model-turn loop version). -/
theorem foldl_modelTurnPart_conn (parts : List ModelPart) :
    ∀ st : ClientState,
      (parts.foldl applyModelTurnPart st).sessionPresent = st.sessionPresent ∧
      (parts.foldl applyModelTurnPart st).isConnected = st.isConnected := by
  induction parts with
  | nil => intro st; exact ⟨rfl, rfl⟩
  | cons p ps ih =>
    intro st
    have h1 := applyModelTurnPart_conn st p
    have h2 := ih (applyModelTurnPart st p)
    simp only [List.foldl_cons]
    exact ⟨h2.1.trans h1.1, h2.2.trans h1.2⟩

/-- The transcription branches never touch the session handle or the
connected flag. -/
theorem applyInputTranscription_conn (st : ClientState) (t : String) :
    (applyInputTranscription st t).sessionPresent = st.sessionPresent ∧
    (applyInputTranscription st t).isConnected = st.isConnected := by
  unfold applyInputTranscription
  by_cases h : st.isReceivingAiOutput <;> simp [h]

/-- The transcription branches never touch the session handle or the
connected flag. -/
theorem applyOutputTranscription_conn (st : ClientState) (t : String) :
    (applyOutputTranscription st t).sessionPresent = st.sessionPresent ∧
    (applyOutputTranscription st t).isConnected = st.isConnected := by
  unfold applyOutputTranscription
  by_cases h : st.isReceivingAiOutput <;> simp [h]

/-- `serverContent` processing never touches the session handle or the
connected flag. -/
theorem applyServerContent_conn (st : ClientState) (sc : ServerContent) :
    (applyServerContent st sc).sessionPresent = st.sessionPresent ∧
    (applyServerContent st sc).isConnected = st.isConnected := by
  unfold applyServerContent
  rcases sc with ⟨tc, mt, it, ot⟩
  dsimp only
  set st1 := if tc then applyTurnComplete st else st with hst1
  have h1 : st1.sessionPresent = st.sessionPresent ∧ st1.isConnected = st.isConnected := by
    rw [hst1]; cases tc <;> simp [applyTurnComplete]
  set st2 := match mt with
    | some parts => parts.foldl applyModelTurnPart st1
    | none => st1 with hst2
  have h2 : st2.sessionPresent = st1.sessionPresent ∧ st2.isConnected = st1.isConnected := by
    rw [hst2]; cases mt with
    | none => exact ⟨rfl, rfl⟩
    | some parts => exact foldl_modelTurnPart_conn parts st1
  set st3 := match it with
    | some t => if t ≠ "" then applyInputTranscription st2 t else st2
    | none => st2 with hst3
  have h3 : st3.sessionPresent = st2.sessionPresent ∧ st3.isConnected = st2.isConnected := by
    rw [hst3]; cases it with
    | none => exact ⟨rfl, rfl⟩
    | some t =>
      by_cases h : t ≠ ""
      · simpa [h] using applyInputTranscription_conn st2 t
      · simp [h]
  have h4 :
      (match ot with
        | some t => if t ≠ "" then applyOutputTranscription st3 t else st3
        | none => st3).sessionPresent = st3.sessionPresent ∧
      (match ot with
        | some t => if t ≠ "" then applyOutputTranscription st3 t else st3
        | none => st3).isConnected = st3.isConnected := by
    cases ot with
    | none => exact ⟨rfl, rfl⟩
    | some t =>
      by_cases h : t ≠ ""
      · simpa [h] using applyOutputTranscription_conn st3 t
      · simp [h]
  exact ⟨((h4.1.trans h3.1).trans h2.1).trans h1.1,
         ((h4.2.trans h3.2).trans h2.2).trans h1.2⟩

/-- `handleMessage` never touches the session handle or the connected
flag: audio, transcripts and tool-call frames only raise the speaking
and processing flags and update the accumulators. -/
theorem handleMessage_conn (st : ClientState) (msg : LiveServerMessage) :
    (handleMessage st msg).sessionPresent = st.sessionPresent ∧
    (handleMessage st msg).isConnected = st.isConnected := by
  unfold handleMessage
  rcases msg with ⟨d, sc, tc⟩
  dsimp only
  set st1 := match d with
    | some dd => if dd ≠ "" then { st with isSpeaking := true } else st
    | none => st with hst1
  have h1 : st1.sessionPresent = st.sessionPresent ∧ st1.isConnected = st.isConnected := by
    rw [hst1]; cases d with
    | none => exact ⟨rfl, rfl⟩
    | some dd => by_cases h : dd ≠ "" <;> simp [h]
  set st2 := match sc with
    | some c => applyServerContent st1 c
    | none => st1 with hst2
  have h2 : st2.sessionPresent = st1.sessionPresent ∧ st2.isConnected = st1.isConnected := by
    rw [hst2]; cases sc with
    | none => exact ⟨rfl, rfl⟩
    | some c => exact applyServerContent_conn st1 c
  have h3 :
      (match tc with
        | some _ => { st2 with isProcessing := true }
        | none => st2).sessionPresent = st2.sessionPresent ∧
      (match tc with
        | some _ => { st2 with isProcessing := true }
        | none => st2).isConnected = st2.isConnected := by
    cases tc <;> exact ⟨rfl, rfl⟩
  exact ⟨(h3.1.trans h2.1).trans h1.1, (h3.2.trans h2.2).trans h1.2⟩

/-- Events whose effect is the `sendAudio` catch branch for a send that
raced with a closing socket. -/
def isCloseRaceEvent : ClientEvent → Bool
  | ClientEvent.sendAudioCall SendCondition.closingRace => true
  | _ => false

/-- The strengthened flag invariant: the session handle tracks the
connected flag, and a disconnected client is neither processing nor
speaking. -/
def goodFlags (st : ClientState) : Prop :=
  st.sessionPresent = st.isConnected ∧
  (st.isConnected = false → st.isProcessing = false ∧ st.isSpeaking = false)

/-- Every event except the `sendAudio` close-race preserves the flag
invariant. -/
theorem step_preserves_goodFlags (st : ClientState) (ev : ClientEvent)
    (hst : goodFlags st) (hev : isCloseRaceEvent ev = false) : goodFlags (step st ev) := by
  cases ev with
  | transportOpen => simp [step, handleOpen, goodFlags]
  | message msg =>
    by_cases h : st.sessionPresent
    · have hc := handleMessage_conn st msg
      have hconn : st.isConnected = true := by
        rw [← hst.1]; exact h
      constructor
      · simp only [step, if_pos h]
        rw [hc.1, hc.2, hst.1]
      · intro hfalse
        simp only [step, if_pos h] at hfalse
        rw [hc.2, hconn] at hfalse
        exact absurd hfalse (by simp)
    · simpa [step, h] using hst
  | transportClose => simp [step, handleClose, goodFlags]
  | disconnectCall => simp [step, disconnect, goodFlags]
  | sendAudioCall cond =>
    cases cond with
    | delivered =>
      by_cases h : st.sessionPresent = false ∨ st.isConnected = false
      · simpa [step, sendAudio, h] using hst
      · simpa [step, sendAudio, h] using hst
    | closingRace => exact absurd hev (by simp [isCloseRaceEvent])
    | fault =>
      by_cases h : st.sessionPresent = false ∨ st.isConnected = false
      · simpa [step, sendAudio, h] using hst
      · simpa [step, sendAudio, h] using hst
  | sendTextCall =>
    by_cases h : st.sessionPresent = false ∨ st.isConnected = false
    · simpa [step, sendText, h] using hst
    · push_neg at h
      have hconn : st.isConnected = true := by
        simpa using h.2
      constructor
      · simp [step, sendText, hconn, h.1, hst.1]
      · intro hfalse
        simp [step, sendText, hconn, h.1] at hfalse
  | interruptCall =>
    by_cases h : st.sessionPresent = false ∨ st.isConnected = false
    · simpa [step, interrupt, h] using hst
    · push_neg at h
      have hconn : st.isConnected = true := by
        simpa using h.2
      constructor
      · simp [step, interrupt, hconn, h.1, hst.1]
      · intro hfalse
        simp [step, interrupt, hconn, h.1] at hfalse

/-- The flag invariant holds after any close-race-free event sequence,
from any state satisfying it. -/
theorem foldl_goodFlags (evs : List ClientEvent) :
    ∀ st : ClientState, goodFlags st → (∀ ev ∈ evs, isCloseRaceEvent ev = false) →
      goodFlags (evs.foldl step st) := by
  induction evs with
  | nil => intro st hst _; exact hst
  | cons ev evs ih =>
    intro st hst hall
    simp only [List.foldl_cons]
    exact ih (step st ev) (step_preserves_goodFlags st ev hst (hall ev (by simp)))
      (fun e he => hall e (by simp [he]))

/-- A concrete tool-call frame used in counterexample traces. -/
def toolCallMsg : LiveServerMessage :=
  { data := none, serverContent := none,
    toolCall := some [{ name := some "move_forward",
                        args := some [("steps", JPrim.num 3)], id := some "call-1" }] }

/-- The trace in which a tool call arrives (raising the processing
flag) and a `sendAudio` then races with the closing socket. -/
def raceTrace : List ClientEvent :=
  [ClientEvent.transportOpen, ClientEvent.message toolCallMsg,
   ClientEvent.sendAudioCall SendCondition.closingRace]

/-- C2 counterexample: the claim is false as stated.  After connect,
an inbound tool-call frame and a `sendAudio` that races with the
closing transport, the client is in a reachable state with
`isConnected = false` but `isProcessing = true`: the catch branch of
`sendAudio` lowers only the connected flag. -/
theorem disconnected_implies_idle_false :
    ¬ (∀ evs : List ClientEvent, (run evs).isConnected = false →
        (run evs).isProcessing = false ∧ (run evs).isSpeaking = false) := by
  intro h
  exact absurd (h raceTrace (by decide)).1 (by decide)

/-- C2 (amended): in every state reachable by a sequence of
public-method calls and inbound-event handlers that does not contain
the `sendAudio` close-race transition, `isConnected = false` implies
`isProcessing = false` and `isSpeaking = false`.  The close-race
transition itself lowers only `isConnected` and can transiently leave
the other two flags raised until the transport close handler runs. -/
theorem disconnected_implies_idle (evs : List ClientEvent)
    (h : ∀ ev ∈ evs, isCloseRaceEvent ev = false) :
    (run evs).isConnected = false →
    (run evs).isProcessing = false ∧ (run evs).isSpeaking = false :=
  (foldl_goodFlags evs initialClientState (by simp [goodFlags, initialClientState]) h).2

/-- C2 witness: the amended invariant evaluated on the concrete trace
connect, inbound audio frame, transport close. -/
theorem disconnected_implies_idle_witness :
    (∀ ev ∈ [ClientEvent.transportOpen,
              ClientEvent.message { data := some "AAAA", serverContent := none, toolCall := none },
              ClientEvent.transportClose], isCloseRaceEvent ev = false) ∧
    ((run [ClientEvent.transportOpen,
           ClientEvent.message { data := some "AAAA", serverContent := none, toolCall := none },
           ClientEvent.transportClose]).isConnected = false →
      (run [ClientEvent.transportOpen,
            ClientEvent.message { data := some "AAAA", serverContent := none, toolCall := none },
            ClientEvent.transportClose]).isProcessing = false ∧
      (run [ClientEvent.transportOpen,
            ClientEvent.message { data := some "AAAA", serverContent := none, toolCall := none },
            ClientEvent.transportClose]).isSpeaking = false) :=
  ⟨by decide, disconnected_implies_idle _ (by decide)⟩

/-! ### Turn accumulator transitions and space joining -/

/-- A state in agent-output mode with non-empty text on both sides,
just before an agent-to-user role switch. -/
def switchState : ClientState :=
  { initialClientState with
      isReceivingAiOutput := true,
      accumulatedAiResponse := "agent words",
      accumulatedTranscript := "user words" }

/-- C4 counterexample: at a switch from agent-text-active to
user-transcript-active (both buffers non-empty), the code appends to
the newly active user-transcript buffer without clearing it, and
unconditionally clears the newly inactive agent-text buffer — the
reverse of the claimed behavior on both sides. -/
theorem turn_switch_clear_claim_false :
    (applyInputTranscription switchState "tail").accumulatedTranscript = "user words tail" ∧
    (applyInputTranscription switchState "tail").accumulatedAiResponse = "" ∧
    (applyInputTranscription switchState "tail").accumulatedTranscript ≠ "tail" ∧
    (applyInputTranscription switchState "tail").accumulatedAiResponse ≠ "agent words" := by
  refine ⟨?_, ?_, ?_, ?_⟩ <;> decide

/-- C4 (amended): when a transcription fragment flips the
agent-output flag, the buffer of the side that just became inactive is
cleared unconditionally, while the newly active side keeps its buffer
and the fragment is appended to it with space-joining. -/
theorem turn_switch_clears_inactive_side (st : ClientState) (t : String) :
    (st.isReceivingAiOutput = true →
        (applyInputTranscription st t).accumulatedAiResponse = "" ∧
        (applyInputTranscription st t).accumulatedTranscript
            = joinAppend st.accumulatedTranscript t ∧
        (applyInputTranscription st t).isReceivingAiOutput = false) ∧
    (st.isReceivingAiOutput = false →
        (applyOutputTranscription st t).accumulatedTranscript = "" ∧
        (applyOutputTranscription st t).accumulatedAiResponse
            = joinAppend st.accumulatedAiResponse t ∧
        (applyOutputTranscription st t).isReceivingAiOutput = true) := by
  constructor
  · intro h; simp [applyInputTranscription, h]
  · intro h; simp [applyOutputTranscription, h]

/-- C4 witness: the amended transition behavior evaluated at concrete
states on both switch directions. -/
theorem turn_switch_clears_inactive_side_witness :
    ((applyInputTranscription switchState "tail").accumulatedAiResponse = "" ∧
     (applyInputTranscription switchState "tail").accumulatedTranscript
         = joinAppend switchState.accumulatedTranscript "tail" ∧
     (applyInputTranscription switchState "tail").isReceivingAiOutput = false) ∧
    ((applyOutputTranscription initialClientState "hi").accumulatedTranscript = "" ∧
     (applyOutputTranscription initialClientState "hi").accumulatedAiResponse
         = joinAppend initialClientState.accumulatedAiResponse "hi" ∧
     (applyOutputTranscription initialClientState "hi").isReceivingAiOutput = true) :=
  ⟨(turn_switch_clears_inactive_side switchState "tail").1 rfl,
   (turn_switch_clears_inactive_side initialClientState "hi").2 rfl⟩

/-- C5 (amended): the transcription append inserts a single separating
space exactly when the accumulator is non-empty and neither side of
the join already supplies one; it never inserts a space when either
side already supplies it, and appending to an empty accumulator is the
fragment itself. -/
theorem joinAppend_space_discipline (acc t : String) :
    (acc ≠ "" → strEndsWith acc " " = false → strStartsWith t " " = false →
        joinAppend acc t = acc ++ " " ++ t) ∧
    ((strEndsWith acc " " = true ∨ strStartsWith t " " = true) →
        joinAppend acc t = acc ++ t) ∧
    (acc = "" → joinAppend acc t = t) := by
  refine ⟨?_, ?_, ?_⟩
  · intro h1 h3 h4
    unfold joinAppend
    rw [if_pos ⟨h1, h3, h4⟩]
  · intro h
    unfold joinAppend
    rw [if_neg]
    rintro ⟨-, h2, h3⟩
    rcases h with h | h
    · exact absurd (h.symm.trans h2) (by decide)
    · exact absurd (h.symm.trans h3) (by decide)
  · intro h
    simp [joinAppend, h]

/-- C5 witness: the space-joining discipline evaluated at concrete
fragments. -/
theorem joinAppend_space_discipline_witness :
    joinAppend "hello" "world" = "hello" ++ " " ++ "world" ∧
    joinAppend "hello " "world" = "hello " ++ "world" ∧
    joinAppend "" "world" = "world" :=
  ⟨(joinAppend_space_discipline "hello" "world").1 (by decide) (by decide) (by decide),
   (joinAppend_space_discipline "hello " "world").2.1 (Or.inl (by decide)),
   (joinAppend_space_discipline "" "world").2.2 rfl⟩

/-- A server message carrying a single model-turn text part. -/
def modelTextMsg (t : String) : LiveServerMessage :=
  { data := none,
    serverContent := some { turnComplete := false,
                            modelTurn := some [{ text := some t, functionCall := none }],
                            inputTranscription := none, outputTranscription := none },
    toolCall := none }

/-- C5 counterexample: the claim is false for model-turn text parts.
Two inbound model-turn fragments `"foo"` and `"bar"` — neither ending
nor starting with whitespace — are accumulated by plain concatenation
into `"foobar"`, joining two non-empty fragments without a separating
space. -/
theorem model_turn_join_unspaced :
    (handleMessage (handleMessage initialClientState (modelTextMsg "foo"))
        (modelTextMsg "bar")).accumulatedAiResponse = "foobar" ∧
    strEndsWith "foo" " " = false ∧
    strStartsWith "bar" " " = false ∧
    ("foobar" : String) ≠ "foo" ++ " " ++ "bar" := by
  refine ⟨?_, ?_, ?_, ?_⟩ <;> decide

/-! ### Disconnected `sendAudio` -/

/-- C8: calling `sendAudio` with no session or with the connected flag
down returns `false` (non-delivery), does not throw, and returns the
state unchanged — in particular both accumulator buffers and the
`isReceivingAiOutput` flag are untouched. -/
theorem sendAudio_disconnected_silent (st : ClientState) (cond : SendCondition)
    (h : st.sessionPresent = false ∨ st.isConnected = false) :
    sendAudio st cond = Except.ok (false, st) ∧
    ∀ b st2, sendAudio st cond = Except.ok (b, st2) →
      st2.accumulatedAiResponse = st.accumulatedAiResponse ∧
      st2.accumulatedTranscript = st.accumulatedTranscript ∧
      st2.isReceivingAiOutput = st.isReceivingAiOutput := by
  have h1 : sendAudio st cond = Except.ok (false, st) := by
    unfold sendAudio
    rw [if_pos h]
  refine ⟨h1, ?_⟩
  intro b st2 heq
  rw [h1] at heq
  cases heq
  exact ⟨rfl, rfl, rfl⟩

/-- C8 witness: a disconnected `sendAudio` on the constructor state. -/
theorem sendAudio_disconnected_silent_witness :
    (initialClientState.sessionPresent = false ∨ initialClientState.isConnected = false) ∧
    sendAudio initialClientState SendCondition.delivered = Except.ok (false, initialClientState) :=
  ⟨Or.inl rfl,
   (sendAudio_disconnected_silent initialClientState SendCondition.delivered (Or.inl rfl)).1⟩

/-! ### Tool-call response correlation (`executeFunctionCall`) -/

/-- The outcome of awaiting the registered tool-call handler
(`config.onFunctionCall`): the promise either resolves with a result
or rejects/throws with an error message. -/
inductive HandlerOutcome where
  | resolved (result : JPrim)
  | thrown (message : String)
  deriving Repr, DecidableEq

/-- One outbound `functionResponses` entry: the correlated call id, the
operation name, and either the normalized success payload or the
wrapped error-message payload.  JSON normalization of the handler
result (`normalizeFunctionResponsePayload`) is the identity on the
primitive payloads modelled here. -/
inductive ResponsePayload where
  | success (payload : JPrim)
  | failure (error : String)
  deriving Repr, DecidableEq

/-- An outbound tool-response frame, as listed under
`functionResponses`. -/
structure ResponseFrame where
  id : String
  name : String
  response : ResponsePayload
  deriving Repr, DecidableEq

/-- The response frames transmitted by one `executeFunctionCall` run.
In both the try branch and the catch branch the source guards the send
with `if (id && this.session)`: a frame goes out only when the call
identifier is non-empty (JS truthiness) and the session handle is
still set when the handler settles. -/
def executeFunctionCallResponses (name id : String) (sessionPresent : Bool)
    (outcome : HandlerOutcome) : List ResponseFrame :=
  match outcome with
  | HandlerOutcome.resolved r =>
    if id ≠ "" ∧ sessionPresent = true then [⟨id, name, ResponsePayload.success r⟩] else []
  | HandlerOutcome.thrown e =>
    if id ≠ "" ∧ sessionPresent = true then [⟨id, name, ResponsePayload.failure e⟩] else []

/-- C1 counterexample: the claim is false as stated.  A parsed tool
call with the non-empty identifier `"call-7"` whose handler resolves
after the session handle has been cleared (close or disconnect racing
with the in-flight handler) transmits zero response frames, not
exactly one. -/
theorem tool_call_one_response_claim_false :
    ¬ (∀ (name id : String) (sessionPresent : Bool) (outcome : HandlerOutcome),
        id ≠ "" →
        (executeFunctionCallResponses name id sessionPresent outcome).length = 1) := by
  intro h
  exact absurd
    (h "move_forward" "call-7" false (HandlerOutcome.resolved (JPrim.str "done")) (by decide))
    (by decide)

/-- C1 (amended): provided the session handle is still present when the
handler settles, a tool call with a non-empty identifier transmits
exactly one correlated response — a success frame when the handler
resolves and an error frame when it throws — and a call with an empty
identifier transmits none, regardless of handler outcome and session
presence. -/
theorem tool_call_response_discipline (name id : String) (sessionPresent : Bool)
    (outcome : HandlerOutcome) :
    (sessionPresent = true → id ≠ "" →
        (executeFunctionCallResponses name id sessionPresent outcome).length = 1) ∧
    (sessionPresent = true → id ≠ "" → ∀ r, outcome = HandlerOutcome.resolved r →
        executeFunctionCallResponses name id sessionPresent outcome
          = [⟨id, name, ResponsePayload.success r⟩]) ∧
    (sessionPresent = true → id ≠ "" → ∀ e, outcome = HandlerOutcome.thrown e →
        executeFunctionCallResponses name id sessionPresent outcome
          = [⟨id, name, ResponsePayload.failure e⟩]) ∧
    (id = "" →
        (executeFunctionCallResponses name id sessionPresent outcome).length = 0) := by
  refine ⟨?_, ?_, ?_, ?_⟩
  · intro hs hid
    cases outcome <;> simp [executeFunctionCallResponses, hid, hs]
  · intro hs hid r hr
    subst hr
    simp [executeFunctionCallResponses, hid, hs]
  · intro hs hid e he
    subst he
    simp [executeFunctionCallResponses, hid, hs]
  · intro hid
    subst hid
    cases outcome <;> simp [executeFunctionCallResponses]

/-- C1 witness: the response discipline evaluated on a concrete
throwing call with identifier `"abc"` on a live session, and on a
concrete fire-and-forget call with an empty identifier. -/
theorem tool_call_response_discipline_witness :
    (executeFunctionCallResponses "pan_camera" "abc" true
        (HandlerOutcome.thrown "boom")).length = 1 ∧
    executeFunctionCallResponses "pan_camera" "abc" true
        (HandlerOutcome.thrown "boom")
      = [⟨"abc", "pan_camera", ResponsePayload.failure "boom"⟩] ∧
    (executeFunctionCallResponses "pan_camera" "" true
        (HandlerOutcome.resolved (JPrim.str "ok"))).length = 0 :=
  ⟨(tool_call_response_discipline "pan_camera" "abc" true
      (HandlerOutcome.thrown "boom")).1 rfl (by decide),
   (tool_call_response_discipline "pan_camera" "abc" true
      (HandlerOutcome.thrown "boom")).2.2.1 rfl (by decide) "boom" rfl,
   (tool_call_response_discipline "pan_camera" "" true
      (HandlerOutcome.resolved (JPrim.str "ok"))).2.2.2 rfl⟩

/-! ## Tool registry validation (`validateFunctionArgs` in
`navigation-tools.ts`) -/

/-- The `unknown` value handed to `validateFunctionArgs`: a JS object
(association list of primitive fields) or some non-object value, the
latter carrying its `typeof` string for the error message. -/
inductive JArgs where
  | obj (fields : List (String × JPrim))
  | nonObject (typeName : String)
  deriving Repr, DecidableEq

/-- `validateFunctionArgs`: checks the argument object of each of the
six declared tools field by field, in source order, and throws
(`Except.error`) with the source's message on the first violation;
returns `true` when the arguments are valid. -/
def validateFunctionArgs (functionName : String) (args : JArgs) : Except String Bool :=
  match args with
  | JArgs.nonObject t =>
    Except.error ("Invalid arguments for " ++ functionName ++ ": expected object, got " ++ t)
  | JArgs.obj fields =>
    if functionName = "pan_camera" then
      match fields.lookup "heading_degrees" with
      | some (JPrim.num h) =>
        match fields.lookup "pitch_degrees" with
        | some (JPrim.num p) =>
          if h < 0 ∨ 360 < h then
            Except.error "heading_degrees must be between 0 and 360"
          else if p < -90 ∨ 90 < p then
            Except.error "pitch_degrees must be between -90 and 90"
          else Except.ok true
        | _ => Except.error "pan_camera requires pitch_degrees as a number"
      | _ => Except.error "pan_camera requires heading_degrees as a number"
    else if functionName = "move_forward" then
      match fields.lookup "steps" with
      | some (JPrim.num s) =>
        if s < 1 ∨ 5 < s then
          Except.error "steps must be between 1 and 5"
        else Except.ok true
      | _ => Except.error "move_forward requires steps as a number"
    else if functionName = "teleport" then
      match fields.lookup "location_name" with
      | some (JPrim.str s) =>
        if s.trim = "" then
          Except.error "teleport requires location_name as a non-empty string"
        else Except.ok true
      | _ => Except.error "teleport requires location_name as a non-empty string"
    else if functionName = "look_at" then
      match fields.lookup "object_description" with
      | some (JPrim.str s) =>
        if s.trim = "" then
          Except.error "look_at requires object_description as a non-empty string"
        else Except.ok true
      | _ => Except.error "look_at requires object_description as a non-empty string"
    else if functionName = "get_location_info" then
      Except.ok true
    else if functionName = "take_selfie" then
      match fields.lookup "style" with
      | none => Except.ok true
      | some (JPrim.str _) => Except.ok true
      | some _ => Except.error "take_selfie style must be a string if provided"
    else
      Except.error ("Unknown function: " ++ functionName)

/-! ## Navigation dispatch (`executeFunctionCall` in
`anywhere-explorer.tsx`) -/

/-- A call issued to the `window.anywhere` viewer control API, or the
selfie-dialog state setter. -/
inductive ApiCall where
  | panTo (heading pitch : ℚ)
  | moveForward (steps : ℚ)
  | teleportTo (location : String)
  | getContext
  | openSelfieDialog
  deriving Repr, DecidableEq

/-- The unchecked `as number` cast the dispatch applies to argument
fields; a non-numeric value is mapped to zero here. -/
def asNum (v : Option JPrim) : ℚ :=
  match v with
  | some (JPrim.num q) => q
  | _ => 0

/-- The unchecked `as string` cast; a non-string value is mapped to the
empty string here. -/
def asStr (v : Option JPrim) : String :=
  match v with
  | some (JPrim.str s) => s
  | _ => ""

/-- Rendering of a JS number into a template string, approximated by
the rational printer. -/
def jsNumToString (q : ℚ) : String := toString q

/-- The `{success, message?, error?}` object a dispatch case returns to
the session as the tool result. -/
structure NavResult where
  success : Bool
  message : Option String
  error : Option String
  deriving Repr, DecidableEq

/-- The navigation dispatch of `anywhere-explorer.tsx`: routes a tool
call by name to the `window.anywhere` control API and builds the tool
result.  No registry validation runs on this path.  The second
component records the viewer-API calls the dispatch performs.  The
viewer API is taken as available with resolving promises (so the
`catch` wrapper is not exercised), and the context payload attached by
`get_location_info` is elided from the result. -/
def executeFunctionCallExplorer (name : String) (args : List (String × JPrim)) :
    NavResult × List ApiCall :=
  if name = "pan_camera" then
    let heading := asNum (args.lookup "heading_degrees")
    let pitch := asNum (args.lookup "pitch_degrees")
    ({ success := true,
       message := some ("Camera panned to heading " ++ jsNumToString heading ++
         "°, pitch " ++ jsNumToString pitch ++ "°"),
       error := none }, [ApiCall.panTo heading pitch])
  else if name = "move_forward" then
    let steps := asNum (args.lookup "steps")
    ({ success := true,
       message := some ("Moved forward " ++ jsNumToString steps ++ " step" ++
         (if 1 < steps then "s" else "")),
       error := none }, [ApiCall.moveForward steps])
  else if name = "teleport" then
    let locationName := asStr (args.lookup "location_name")
    ({ success := true,
       message := some ("Teleported to " ++ locationName),
       error := none }, [ApiCall.teleportTo locationName])
  else if name = "look_at" then
    let objectDescription := asStr (args.lookup "object_description")
    ({ success := false,
       message := some ("Vision-based look_at for \"" ++ objectDescription ++
         "\" not yet implemented. Please use pan_camera with specific heading/pitch values instead."),
       error := none }, [])
  else if name = "get_location_info" then
    ({ success := true,
       message := some "Use Google Search to find information about this location",
       error := none }, [ApiCall.getContext])
  else if name = "take_selfie" then
    ({ success := true,
       message := some ("Selfie dialog opened. The user can now upload their photo " ++
         "and generate a souvenir image."),
       error := none }, [ApiCall.openSelfieDialog])
  else
    ({ success := false, message := none,
       error := some ("Unknown function: " ++ name) }, [])

/-- The dispatch of the sibling revision embedded in
`selfie-dialog.tsx`, whose comment reads "Validates arguments before
execution per spec requirements": it runs `validateFunctionArgs` first
and returns the validation error as the tool error payload without any
viewer call.  (That revision also implements a keyword-heuristic
`look_at`; only its validation gate is modelled, the post-validation
switch is shared with the primary dispatch.) -/
def executeFunctionCallValidated (name : String) (args : List (String × JPrim)) :
    NavResult × List ApiCall :=
  match validateFunctionArgs name (JArgs.obj args) with
  | Except.error e => ({ success := false, message := none, error := some e }, [])
  | Except.ok _ => executeFunctionCallExplorer name args

/-- C3: the registry rejects `move_forward` with `steps = 6`, but the
dispatch path of `anywhere-explorer.tsx` never invokes the registry:
it passes the invalid call straight to the viewer handler
`moveForward(6)` and reports success instead of returning the
validation error as the tool error payload. -/
theorem move_forward_invalid_steps_dispatched :
    validateFunctionArgs "move_forward" (JArgs.obj [("steps", JPrim.num 6)])
      = Except.error "steps must be between 1 and 5" ∧
    (executeFunctionCallExplorer "move_forward" [("steps", JPrim.num 6)]).2
      = [ApiCall.moveForward 6] ∧
    (executeFunctionCallExplorer "move_forward" [("steps", JPrim.num 6)]).1.success = true ∧
    (executeFunctionCallExplorer "move_forward" [("steps", JPrim.num 6)]).1.error = none := by
  refine ⟨rfl, ?_, ?_, ?_⟩ <;> decide

/-- The sibling revision behaves as the claim demands on the same
input: validation short-circuits the call, no viewer handler runs, and
the validation error is the tool error payload. -/
theorem validated_dispatch_short_circuits :
    (executeFunctionCallValidated "move_forward" [("steps", JPrim.num 6)]).1
      = { success := false, message := none, error := some "steps must be between 1 and 5" } ∧
    (executeFunctionCallValidated "move_forward" [("steps", JPrim.num 6)]).2 = [] := by
  constructor <;> decide

/-- C7 counterexample: the claim is false on the dispatch of
`anywhere-explorer.tsx`.  For the non-empty description
`"the church steeple"` the `look_at` case reports `success = false`
(with a "not yet implemented" message) and performs no viewer call, so
no target angles are computed. -/
theorem look_at_success_claim_false :
    (executeFunctionCallExplorer "look_at"
        [("object_description", JPrim.str "the church steeple")]).1.success = false ∧
    (executeFunctionCallExplorer "look_at"
        [("object_description", JPrim.str "the church steeple")]).2 = [] := by
  constructor <;> decide

/-- C7 (amended): for every object description, the `look_at` case of
the dispatch reports `success = false` with the fixed
"not yet implemented" message naming the description and suggesting
`pan_camera`, and performs no viewer call. -/
theorem look_at_reports_not_implemented (desc : String) :
    (executeFunctionCallExplorer "look_at"
        [("object_description", JPrim.str desc)]).1.success = false ∧
    (executeFunctionCallExplorer "look_at"
        [("object_description", JPrim.str desc)]).1.message
      = some ("Vision-based look_at for \"" ++ desc ++
          "\" not yet implemented. Please use pan_camera with specific heading/pitch values instead.") ∧
    (executeFunctionCallExplorer "look_at"
        [("object_description", JPrim.str desc)]).2 = [] := by
  refine ⟨rfl, rfl, rfl⟩

/-! ## Viewer control API: `moveForward`
(`street-view-panorama.tsx`) -/

/-- One entry of `panorama.getLinks()`: outgoing heading and target
panorama id, both nullable. -/
structure StreetViewLink where
  heading : Option ℚ
  pano : Option String
  deriving Repr, DecidableEq

/-- The panorama graph the viewer navigates: the links available at
each panorama id (`getLinks()`; a null links array is modelled as the
empty list — both take the same blocked branch). -/
structure PanoWorld where
  links : String → List StreetViewLink

/-- The viewer position (`getPano`) and camera heading
(`getPov().heading`). -/
structure ViewerState where
  pano : String
  heading : ℚ
  deriving Repr, DecidableEq

/-- `MoveForwardResult` as declared in the source. -/
structure MoveForwardResult where
  stepsCompleted : ℕ
  stepsRequested : ℕ
  blocked : Bool
  message : Option String
  deriving Repr, DecidableEq

/-- The zero-steps-completed no-links message of `moveForward`. -/
def noPathMessage : String :=
  "Cannot move forward: no navigable paths available from this location. " ++
  "This may be a dead end, or Street View coverage is limited here. " ++
  "Try turning to face a different direction or teleporting to a nearby location."

/-- The partial-progress no-links message of `moveForward`. -/
def deadEndMessage (stepsCompleted : ℕ) : String :=
  "Reached a dead end after " ++ toString stepsCompleted ++ " step" ++
  (if 1 < stepsCompleted then "s" else "") ++ ". " ++
  "No further paths available in this direction."

/-- The zero-steps-completed no-usable-link message of `moveForward`. -/
def noValidPathMessage : String :=
  "Cannot move forward: no valid path found in the current direction. " ++
  "Try turning to face a different direction where a path is visible."

/-- The partial-progress no-usable-link message of `moveForward`. -/
def movedThenBlockedMessage (stepsCompleted : ℕ) : String :=
  "Moved " ++ toString stepsCompleted ++ " step" ++
  (if 1 < stepsCompleted then "s" else "") ++
  " but then reached a point with no clear path forward."

/-- The success message of `moveForward`. -/
def successMessage (stepsCompleted : ℕ) : String :=
  "Successfully moved forward " ++ toString stepsCompleted ++ " step" ++
  (if 1 < stepsCompleted then "s" else "") ++ "."

/-- Absolute value of a rational (`Math.abs`). -/
def qabs (q : ℚ) : ℚ := if q < 0 then qsub 0 q else q

/-- The angular difference used to pick the link closest to the current
heading: absolute difference, folded to at most 180°. -/
def headingDiff (linkHeading currentHeading : ℚ) : ℚ :=
  let diff := qabs (qsub linkHeading currentHeading)
  if 180 < diff then qsub 360 diff else diff

/-- The closest-link scan of `moveForward`: `closestLink` starts as
`links[0] ?? null` with `minDiff = Infinity` (modelled as `none`), and
every link with a non-null heading whose folded difference is strictly
smaller replaces the candidate. -/
def findClosestLink (links2 : List StreetViewLink) (currentHeading : ℚ) :
    Option StreetViewLink :=
  (links2.foldl
    (fun acc link =>
      match link.heading with
      | some lh =>
        let d := headingDiff lh currentHeading
        match acc.2 with
        | some m => if d < m then (some link, some d) else acc
        | none => (some link, some d)
      | none => acc)
    ((links2.head?, none) : Option StreetViewLink × Option ℚ)).1

/-- The step loop of `moveForward`, returning the final viewer state,
the number of completed steps, the blocked flag and the message set by
the loop.  An empty (or null) links array blocks with the no-paths
messages; a closest link without a usable (JS-truthy) pano id blocks
with the no-valid-path messages; otherwise the viewer jumps to the
link's pano (the pano-changed wait and its timeout are timing only and
are not modelled). -/
def moveForwardLoop (w : PanoWorld) :
    ViewerState → ℕ → ℕ → ViewerState × ℕ × Bool × Option String
  | st, 0, stepsCompleted => (st, stepsCompleted, false, none)
  | st, n + 1, stepsCompleted =>
    let links2 := w.links st.pano
    if links2 = [] then
      (st, stepsCompleted, true,
        some (if stepsCompleted = 0 then noPathMessage else deadEndMessage stepsCompleted))
    else
      match findClosestLink links2 st.heading with
      | some closestLink =>
        match closestLink.pano with
        | some targetPano =>
          if targetPano ≠ "" then
            moveForwardLoop w { st with pano := targetPano } n (stepsCompleted + 1)
          else
            (st, stepsCompleted, true,
              some (if stepsCompleted = 0 then noValidPathMessage
                    else movedThenBlockedMessage stepsCompleted))
        | none =>
          (st, stepsCompleted, true,
            some (if stepsCompleted = 0 then noValidPathMessage
                  else movedThenBlockedMessage stepsCompleted))
      | none =>
        (st, stepsCompleted, true,
          some (if stepsCompleted = 0 then noValidPathMessage
                else movedThenBlockedMessage stepsCompleted))

/-- `moveForward(steps)`: clamp the request with `Math.min(steps, 5)`,
run the loop, and fill in the success message when the loop set none
and at least one step completed. -/
def moveForward (w : PanoWorld) (st : ViewerState) (steps : ℕ) :
    MoveForwardResult × ViewerState :=
  let stepsRequested := min steps 5
  match moveForwardLoop w st stepsRequested 0 with
  | (st2, stepsCompleted, blocked, message) =>
    let message :=
      if message = none ∧ 0 < stepsCompleted then some (successMessage stepsCompleted)
      else message
    ({ stepsCompleted := stepsCompleted, stepsRequested := stepsRequested,
       blocked := blocked, message := message }, st2)

/-- C6: the move-forward executor always reports
`stepsRequested = min(steps, 5)` next to `stepsCompleted`, and a
three-step request at a panorama with zero outgoing links returns
`stepsCompleted = 0`, `stepsRequested = 3`, `blocked = true` together
with the message stating that no navigable paths are available. -/
theorem moveForward_blocked_without_links (w : PanoWorld) (st : ViewerState)
    (h : w.links st.pano = []) :
    (∀ steps, ((moveForward w st steps).1).stepsRequested = min steps 5) ∧
    (moveForward w st 3).1.stepsCompleted = 0 ∧
    (moveForward w st 3).1.stepsRequested = 3 ∧
    (moveForward w st 3).1.blocked = true ∧
    (moveForward w st 3).1.message = some noPathMessage := by
  have hloop : moveForwardLoop w st 3 0 = (st, 0, true, some noPathMessage) := by
    show moveForwardLoop w st (2 + 1) 0 = _
    simp [moveForwardLoop, h]
  refine ⟨?_, ?_, ?_, ?_, ?_⟩
  · intro steps
    rcases hl : moveForwardLoop w st (min steps 5) 0 with ⟨st2, c, b, m⟩
    simp [moveForward, hl]
  all_goals
    simp [moveForward, show min 3 5 = 3 from rfl, hloop]

/-- C6 witness: the blocked scenario on a concrete world with no links
anywhere. -/
theorem moveForward_blocked_without_links_witness :
    (PanoWorld.mk (fun _ => [])).links "pano-0" = [] ∧
    (moveForward (PanoWorld.mk (fun _ => [])) (ViewerState.mk "pano-0" 90) 3).1.stepsCompleted = 0 ∧
    (moveForward (PanoWorld.mk (fun _ => [])) (ViewerState.mk "pano-0" 90) 3).1.stepsRequested = 3 ∧
    (moveForward (PanoWorld.mk (fun _ => [])) (ViewerState.mk "pano-0" 90) 3).1.blocked = true ∧
    (moveForward (PanoWorld.mk (fun _ => [])) (ViewerState.mk "pano-0" 90) 3).1.message
      = some noPathMessage :=
  ⟨rfl,
   (moveForward_blocked_without_links (PanoWorld.mk (fun _ => []))
     (ViewerState.mk "pano-0" 90) rfl).2.1,
   (moveForward_blocked_without_links (PanoWorld.mk (fun _ => []))
     (ViewerState.mk "pano-0" 90) rfl).2.2.1,
   (moveForward_blocked_without_links (PanoWorld.mk (fun _ => []))
     (ViewerState.mk "pano-0" 90) rfl).2.2.2.1,
   (moveForward_blocked_without_links (PanoWorld.mk (fun _ => []))
     (ViewerState.mk "pano-0" 90) rfl).2.2.2.2⟩

/-! ## Base64 audio transport
(`arrayBufferToBase64` / `base64ToArrayBuffer` in
`gemini-live-client.ts`)

The source walks the byte buffer through `String.fromCharCode` and
`btoa`, and back through `atob` and `charCodeAt`; the composition is
standard base64 over the byte list, modelled here with bytes as
naturals below 256. -/

/-- The base64 alphabet in index order. -/
def b64Chars : List Char :=
  ['A', 'B', 'C', 'D', 'E', 'F', 'G', 'H', 'I', 'J', 'K', 'L', 'M',
   'N', 'O', 'P', 'Q', 'R', 'S', 'T', 'U', 'V', 'W', 'X', 'Y', 'Z',
   'a', 'b', 'c', 'd', 'e', 'f', 'g', 'h', 'i', 'j', 'k', 'l', 'm',
   'n', 'o', 'p', 'q', 'r', 's', 't', 'u', 'v', 'w', 'x', 'y', 'z',
   '0', '1', '2', '3', '4', '5', '6', '7', '8', '9', '+', '/']

/-- The alphabet character for a 6-bit group. -/
def b64Char (n : ℕ) : Char := b64Chars.getD n 'A'

/-- The 6-bit value of an alphabet character (`atob` table lookup). -/
def b64Value (c : Char) : ℕ := b64Chars.indexOf c

/-- `arrayBufferToBase64`: bytes to base64 characters, three bytes per
four characters, with `=` padding for a final group of one or two
bytes. -/
def arrayBufferToBase64 : List ℕ → List Char
  | [] => []
  | [b1] => [b64Char (b1 / 4), b64Char (b1 % 4 * 16), '=', '=']
  | [b1, b2] =>
    [b64Char (b1 / 4), b64Char (b1 % 4 * 16 + b2 / 16), b64Char (b2 % 16 * 4), '=']
  | b1 :: b2 :: b3 :: rest =>
    b64Char (b1 / 4) :: b64Char (b1 % 4 * 16 + b2 / 16) ::
    b64Char (b2 % 16 * 4 + b3 / 64) :: b64Char (b3 % 64) ::
    arrayBufferToBase64 rest

/-- `base64ToArrayBuffer`: base64 characters back to bytes, honoring
`=` padding in the final four-character group. -/
def base64ToArrayBuffer : List Char → List ℕ
  | c1 :: c2 :: c3 :: c4 :: rest =>
    let v1 := b64Value c1
    let v2 := b64Value c2
    if c3 = '=' then [v1 * 4 + v2 / 16]
    else
      let v3 := b64Value c3
      if c4 = '=' then [v1 * 4 + v2 / 16, v2 % 16 * 16 + v3 / 4]
      else
        (v1 * 4 + v2 / 16) :: (v2 % 16 * 16 + v3 / 4) ::
        (v3 % 4 * 64 + b64Value c4) :: base64ToArrayBuffer rest
  | _ => []

/-- Decoding inverts the alphabet on 6-bit groups. -/
theorem b64Value_b64Char : ∀ n < 64, b64Value (b64Char n) = n := by decide

/-- No alphabet character is the padding character. -/
theorem b64Char_ne_padChar : ∀ n < 64, b64Char n ≠ '=' := by decide

/-- C10: base64 encoding round-trips — decoding the string produced by
`arrayBufferToBase64` with `base64ToArrayBuffer` returns exactly the
original byte sequence, for every buffer of bytes below 256. -/
theorem base64_roundtrip : ∀ (bs : List ℕ), (∀ b ∈ bs, b < 256) →
    base64ToArrayBuffer (arrayBufferToBase64 bs) = bs
  | [] => fun _ => rfl
  | [b1] => fun h => by
    have hb1 : b1 < 256 := h b1 (by simp)
    show base64ToArrayBuffer [b64Char (b1 / 4), b64Char (b1 % 4 * 16), '=', '='] = [b1]
    show [b64Value (b64Char (b1 / 4)) * 4 + b64Value (b64Char (b1 % 4 * 16)) / 16] = [b1]
    rw [b64Value_b64Char _ (by omega), b64Value_b64Char _ (by omega)]
    simp only [List.cons.injEq, and_true]
    omega
  | [b1, b2] => fun h => by
    have hb1 : b1 < 256 := h b1 (by simp)
    have hb2 : b2 < 256 := h b2 (by simp)
    have hne3 : b64Char (b2 % 16 * 4) ≠ '=' := b64Char_ne_padChar _ (by omega)
    show base64ToArrayBuffer
        [b64Char (b1 / 4), b64Char (b1 % 4 * 16 + b2 / 16), b64Char (b2 % 16 * 4), '='] = [b1, b2]
    simp only [base64ToArrayBuffer]
    rw [if_neg hne3]
    simp only [if_true]
    rw [b64Value_b64Char _ (by omega), b64Value_b64Char _ (by omega),
        b64Value_b64Char _ (by omega)]
    simp only [List.cons.injEq, and_true]
    exact ⟨by omega, by omega⟩
  | b1 :: b2 :: b3 :: rest => fun h => by
    have hb1 : b1 < 256 := h b1 (by simp)
    have hb2 : b2 < 256 := h b2 (by simp)
    have hb3 : b3 < 256 := h b3 (by simp)
    have ih := base64_roundtrip rest (fun b hb => h b (by simp [hb]))
    have hne3 : b64Char (b2 % 16 * 4 + b3 / 64) ≠ '=' := b64Char_ne_padChar _ (by omega)
    have hne4 : b64Char (b3 % 64) ≠ '=' := b64Char_ne_padChar _ (by omega)
    show base64ToArrayBuffer
        (b64Char (b1 / 4) :: b64Char (b1 % 4 * 16 + b2 / 16) ::
         b64Char (b2 % 16 * 4 + b3 / 64) :: b64Char (b3 % 64) ::
         arrayBufferToBase64 rest) = b1 :: b2 :: b3 :: rest
    simp only [base64ToArrayBuffer]
    rw [if_neg hne3, if_neg hne4]
    rw [b64Value_b64Char _ (by omega), b64Value_b64Char _ (by omega),
        b64Value_b64Char _ (by omega), b64Value_b64Char _ (by omega)]
    rw [ih]
    simp only [List.cons.injEq, and_true]
    exact ⟨by omega, by omega, by omega⟩

/-- C10 witness: the round-trip evaluated on a concrete buffer covering
all three padding shapes across its length. -/
theorem base64_roundtrip_witness :
    (∀ b ∈ [0, 77, 128, 255, 7], b < 256) ∧
    base64ToArrayBuffer (arrayBufferToBase64 [0, 77, 128, 255, 7]) = [0, 77, 128, 255, 7] :=
  ⟨by decide, base64_roundtrip [0, 77, 128, 255, 7] (by decide)⟩

end Anywhere
